import Mathlib

/-
  Verification development for the NovaSphere solar-system simulation.

  The embedding below translates the core simulation logic of the
  repository (the SolarSystem class of the main script variant: body
  registry, orbit/rotation updater, focus state machine and input
  router) into Lean definitions.  Angles, positions and speeds are
  modelled over the real numbers; descriptor constants are the exact
  decimal literals of the source.  Presentation-only data (colors,
  texture URLs, descriptions, fact tables) and the DOM, renderer,
  raycaster and tween collaborators are outside the modelled core; the
  tween engine is represented by the destination handed to it
  (tweenTarget) and the overlay by its visibility flag (infoActive).
-/

namespace NovaSphere

noncomputable section

/-- Three-component vector, mirroring THREE.Vector3. -/
structure Vec3 where
  x : ℝ
  y : ℝ
  z : ℝ

/-- Spherical camera coordinates, mirroring THREE.Spherical
(radius, phi = polar angle, theta = azimuth). -/
structure Spherical where
  radius : ℝ
  phi : ℝ
  theta : ℝ

/-- Componentwise vector addition. -/
def Vec3.add (a b : Vec3) : Vec3 :=
  ⟨a.x + b.x, a.y + b.y, a.z + b.z⟩

/-- Componentwise vector subtraction. -/
def Vec3.sub (a b : Vec3) : Vec3 :=
  ⟨a.x - b.x, a.y - b.y, a.z - b.z⟩

/-- Scalar multiple of a vector. -/
def Vec3.smul (c : ℝ) (a : Vec3) : Vec3 :=
  ⟨c * a.x, c * a.y, c * a.z⟩

/-- Linear interpolation of vectors, mirroring THREE.Vector3.lerp:
the result is a + (b - a) * t componentwise. -/
def lerp3 (a b : Vec3) (t : ℝ) : Vec3 :=
  ⟨a.x + (b.x - a.x) * t, a.y + (b.y - a.y) * t, a.z + (b.z - a.z) * t⟩

/-- Squared distance between two points. -/
def distSq (a b : Vec3) : ℝ :=
  (a.x - b.x) ^ 2 + (a.y - b.y) ^ 2 + (a.z - b.z) ^ 2

/-- Rotation of a vector about the vertical axis, mirroring
THREE.Matrix4.makeRotationY followed by applyMatrix4. -/
def applyRotY (θ : ℝ) (v : Vec3) : Vec3 :=
  ⟨Real.cos θ * v.x + Real.sin θ * v.z, v.y,
   -(Real.sin θ) * v.x + Real.cos θ * v.z⟩

/-- Conversion from spherical coordinates, mirroring
THREE.Vector3.setFromSpherical. -/
def setFromSpherical (sp : Spherical) : Vec3 :=
  let sinPhiRadius := Real.sin sp.phi * sp.radius
  ⟨sinPhiRadius * Real.sin sp.theta, Real.cos sp.phi * sp.radius,
   sinPhiRadius * Real.cos sp.theta⟩

/-- Static descriptor of one body, from the planetData array literal of
createSolarSystem.  Numeric fields are rationals holding the exact
decimal literals of the source.  The presentation-only fields (color,
textureUrl, emissive, description, facts) are not part of the modelled
core and are omitted. -/
structure PlanetData where
  name : String
  radius : ℚ
  orbitRadius : ℚ
  speed : ℚ
  rotationSpeed : ℚ
  deriving DecidableEq

/-- Mercury descriptor from planetData. -/
def mercuryData : PlanetData :=
  { name := "Mercury", radius := 1.2, orbitRadius := 8,
    speed := 0.003, rotationSpeed := 0.0003 }

/-- Venus descriptor from planetData. -/
def venusData : PlanetData :=
  { name := "Venus", radius := 1.8, orbitRadius := 12,
    speed := 0.005, rotationSpeed := 0.0008 }

/-- Earth descriptor from planetData. -/
def earthData : PlanetData :=
  { name := "Earth", radius := 2.0, orbitRadius := 16,
    speed := 0.008, rotationSpeed := 0.01 }

/-- Mars descriptor from planetData. -/
def marsData : PlanetData :=
  { name := "Mars", radius := 1.6, orbitRadius := 20,
    speed := 0.005, rotationSpeed := 0.009 }

/-- Jupiter descriptor from planetData. -/
def jupiterData : PlanetData :=
  { name := "Jupiter", radius := 5.5, orbitRadius := 28,
    speed := 0.001, rotationSpeed := 0.02 }

/-- Saturn descriptor from planetData.  The source object literal
repeats the orbitRadius key (50, then 36); in JavaScript the later
key wins, so the effective value is 36. -/
def saturnData : PlanetData :=
  { name := "Saturn", radius := 4.8, orbitRadius := 36,
    speed := 0.0004, rotationSpeed := 0.018 }

/-- Uranus descriptor from planetData. -/
def uranusData : PlanetData :=
  { name := "Uranus", radius := 3.2, orbitRadius := 44,
    speed := 0.00015, rotationSpeed := 0.015 }

/-- Neptune descriptor from planetData.  The source object literal
repeats the orbitRadius key (58, then 50); the later key wins, so the
effective value is 50. -/
def neptuneData : PlanetData :=
  { name := "Neptune", radius := 3.1, orbitRadius := 50,
    speed := 0.00008, rotationSpeed := 0.016 }

/-- The ordered planetData array of createSolarSystem. -/
def planetData : List PlanetData :=
  [mercuryData, venusData, earthData, marsData,
   jupiterData, saturnData, uranusData, neptuneData]

/-- Names of the planets given a custom ShaderMaterial with a time
uniform by the material switch in createPlanet.  Saturn receives a
MeshPhongMaterial, which has no uniforms, so the uniform update in the
animation loop is skipped for it. -/
def shaderPlanetNames : List String :=
  ["Earth", "Mars", "Jupiter", "Venus", "Mercury", "Uranus", "Neptune"]

/-- Mutable per-body runtime record, from the planet object built in
createPlanet together with the mesh fields the updater writes
(mesh.position, mesh.rotation.y, the material time uniform). -/
structure Planet where
  name : String
  orbitRadius : ℝ
  angle : ℝ
  speed : ℝ
  baseSpeed : ℝ
  rotationSpeed : ℝ
  meshRadius : ℝ
  hasUniforms : Bool
  posX : ℝ
  posY : ℝ
  posZ : ℝ
  rotY : ℝ
  shaderTime : ℝ

/-- Position vector of a planet mesh. -/
def planetPos (p : Planet) : Vec3 :=
  ⟨p.posX, p.posY, p.posZ⟩

/-- Translation of createPlanet(data, index): the mesh is placed at
x = orbitRadius (y and z keep their zero defaults), and the planet
record is initialised with angle = (index * PI * 2) / 8, speed and
baseSpeed both equal to the descriptor speed.  meshRadius is the
sphere-geometry radius (data.radius), later read back through
mesh.geometry.parameters.radius. -/
def createPlanet (data : PlanetData) (index : ℕ) : Planet :=
  { name := data.name
    orbitRadius := (data.orbitRadius : ℝ)
    angle := ((index : ℝ) * Real.pi * 2) / 8
    speed := (data.speed : ℝ)
    baseSpeed := (data.speed : ℝ)
    rotationSpeed := (data.rotationSpeed : ℝ)
    meshRadius := (data.radius : ℝ)
    hasUniforms := shaderPlanetNames.contains data.name
    posX := (data.orbitRadius : ℝ)
    posY := 0
    posZ := 0
    rotY := 0
    shaderTime := 0 }

/-- Translation of the forEach loop of createSolarSystem, which calls
createPlanet(data, index) in order and pushes each result. -/
def buildPlanets : ℕ → List PlanetData → List Planet
  | _, [] => []
  | i, d :: ds => createPlanet d i :: buildPlanets (i + 1) ds

/-- The body registry immediately after createSolarSystem. -/
def planets0 : List Planet :=
  buildPlanets 0 planetData

/-- Sun runtime state: mesh rotation about the vertical axis and the
time uniform of its ShaderMaterial. -/
structure SunState where
  rotY : ℝ
  shaderTime : ℝ

/-- Orbit-control state from setupControls.  The fields never read by
the modelled logic (enabled, autoRotate, autoRotateSpeed, enableZoom,
enablePan) are omitted. -/
structure Controls where
  isMouseDown : Bool
  mouseX : ℝ
  mouseY : ℝ
  rotationSpeed : ℝ
  minDistance : ℝ
  maxDistance : ℝ
  spherical : Spherical
  target : Vec3

/-- Camera pose: position plus the look-at target last applied. -/
structure Camera where
  position : Vec3
  lookTarget : Vec3

/-- Whole-system state of the SolarSystem instance (the fields of the
modelled core). -/
structure SysState where
  planets : List Planet
  sun : SunState
  starsRotY : ℝ
  isPaused : Bool
  globalSpeedMultiplier : ℝ
  controls : Controls
  camera : Camera
  currentFocusedPlanet : Option ℕ
  cameraFollowMode : Bool
  infoActive : Bool
  tweenTarget : Option Vec3

/-- The authored default camera position (0, 30, 50). -/
def defaultCameraPosition : Vec3 :=
  ⟨0, 30, 50⟩

/-- Translation of updateCameraFromControls: the camera position is
set from the spherical coordinates plus the control target, and the
camera looks at the control target. -/
def updateCameraFromControls (s : SysState) : SysState :=
  { s with camera :=
      { position := Vec3.add (setFromSpherical s.controls.spherical) s.controls.target
        lookTarget := s.controls.target } }

/-- Per-body step of the animation loop (one unpaused frame): the time
uniform is set to the elapsed clock time when the material has
uniforms, the orbital angle is advanced by speed * globalSpeedMultiplier,
the mesh position is recomputed from the new angle, and the mesh spin
advances by rotationSpeed. -/
def tickPlanet (g elapsedTime : ℝ) (p : Planet) : Planet :=
  let t := if p.hasUniforms then elapsedTime else p.shaderTime
  let a := p.angle + p.speed * g
  { p with
    shaderTime := t
    angle := a
    posX := Real.cos a * p.orbitRadius
    posZ := Real.sin a * p.orbitRadius
    rotY := p.rotY + p.rotationSpeed }

/-- One unpaused frame of the orbit/rotation updater over the whole
registry (the planets.forEach body of animate). -/
def tickPlanets (g elapsedTime : ℝ) (ps : List Planet) : List Planet :=
  ps.map (tickPlanet g elapsedTime)

/-- Camera-follow block at the end of animate: when cameraFollowMode
is set and a planet is focused, the camera position is interpolated
5 percent of the way toward the planet position plus an offset of
(d * 0.8, d * 0.5, d) rotated by the orbital angle, where d is five
times the mesh radius, and the camera looks at the planet position. -/
def followCamera (s : SysState) : SysState :=
  if s.cameraFollowMode then
    match s.currentFocusedPlanet with
    | some i =>
      match s.planets[i]? with
      | some planet =>
        let distance := planet.meshRadius * 5
        let cameraOffset := applyRotY planet.angle
          ⟨distance * 0.8, distance * 0.5, distance⟩
        let targetCameraPosition := Vec3.add (planetPos planet) cameraOffset
        { s with camera :=
            { position := lerp3 s.camera.position targetCameraPosition 0.05
              lookTarget := planetPos planet } }
      | none => s
    | none => s
  else s

/-- Recomputed follow target for a focused planet (the
targetCameraPosition of the follow block). -/
def followTargetPos (p : Planet) : Vec3 :=
  Vec3.add (planetPos p)
    (applyRotY p.angle ⟨p.meshRadius * 5 * 0.8, p.meshRadius * 5 * 0.5, p.meshRadius * 5⟩)

/-- Translation of one animate frame (requestAnimationFrame callback),
minus the external render call: when not paused, the sun shader time
and rotation, every planet, and the star-field rotation advance; the
camera-follow block then runs unconditionally. -/
def animateTick (elapsedTime : ℝ) (s : SysState) : SysState :=
  let s1 :=
    if s.isPaused then s
    else
      { s with
        sun := { rotY := s.sun.rotY + 0.005, shaderTime := elapsedTime }
        planets := tickPlanets s.globalSpeedMultiplier elapsedTime s.planets
        starsRotY := s.starsRotY + 0.0002 }
  followCamera s1

/-- Translation of onMouseDown: record the press and its coordinates. -/
def onMouseDown (x y : ℝ) (s : SysState) : SysState :=
  { s with controls := { s.controls with isMouseDown := true, mouseX := x, mouseY := y } }

/-- Translation of onMouseMove while the button is held: the azimuth
decreases by deltaX * rotationSpeed, the polar angle increases by
deltaY * rotationSpeed and is clamped to the open band 0.1 .. PI - 0.1,
the stored mouse coordinates advance, and the camera pose is updated
from the controls only when cameraFollowMode is off.  The hover branch
(tooltips) touches no modelled state. -/
def onMouseMove (x y : ℝ) (s : SysState) : SysState :=
  if s.controls.isMouseDown then
    let deltaX := x - s.controls.mouseX
    let deltaY := y - s.controls.mouseY
    let theta := s.controls.spherical.theta - deltaX * s.controls.rotationSpeed
    let phi := s.controls.spherical.phi + deltaY * s.controls.rotationSpeed
    let phi := max 0.1 (min (Real.pi - 0.1) phi)
    let s := { s with controls :=
      { s.controls with
        spherical := { s.controls.spherical with theta := theta, phi := phi }
        mouseX := x
        mouseY := y } }
    if s.cameraFollowMode then s else updateCameraFromControls s
  else s

/-- Translation of onMouseUp: release the button. -/
def onMouseUp (s : SysState) : SysState :=
  { s with controls := { s.controls with isMouseDown := false } }

/-- Translation of onMouseWheel: the radius is scaled by 1.1 for a
positive deltaY and 0.9 otherwise, clamped to minDistance and
maxDistance, and the camera pose is updated from the controls only
when cameraFollowMode is off. -/
def onMouseWheel (deltaY : ℝ) (s : SysState) : SysState :=
  let scale : ℝ := if 0 < deltaY then 1.1 else 0.9
  let radius := s.controls.spherical.radius * scale
  let radius := max s.controls.minDistance (min s.controls.maxDistance radius)
  let s := { s with controls :=
    { s.controls with spherical := { s.controls.spherical with radius := radius } } }
  if s.cameraFollowMode then s else updateCameraFromControls s

/-- Translation of focusOnSun: the planet focus reference is cleared,
follow mode is turned off, the overlay is populated and revealed
(showObjectInfo adds the active class), and a camera tween toward the
fixed pose (0, 15, 25) is started. -/
def focusOnSun (s : SysState) : SysState :=
  { s with
    currentFocusedPlanet := none
    cameraFollowMode := false
    infoActive := true
    tweenTarget := some ⟨0, 15, 25⟩ }

/-- Translation of focusOnPlanet: the focus reference is set to the
clicked planet, follow mode is turned on, the overlay is revealed, and
a camera tween is started toward the planet position offset by
(0, d * 0.5, d) with d five times the mesh radius. -/
def focusOnPlanet (i : ℕ) (s : SysState) : SysState :=
  match s.planets[i]? with
  | some planet =>
    let distance := planet.meshRadius * 5
    { s with
      currentFocusedPlanet := some i
      cameraFollowMode := true
      infoActive := true
      tweenTarget := some ⟨planet.posX, planet.posY + distance * 0.5, planet.posZ + distance⟩ }
  | none => s

/-- Translation of resetCameraView: focus cleared, follow mode off,
spherical controls reset to radius 50, polar PI / 3, azimuth 0, target
origin, and a camera tween started toward defaultCameraPosition. -/
def resetCameraView (s : SysState) : SysState :=
  { s with
    currentFocusedPlanet := none
    cameraFollowMode := false
    controls := { s.controls with
      spherical := { radius := 50, phi := Real.pi / 3, theta := 0 }
      target := ⟨0, 0, 0⟩ }
    tweenTarget := some defaultCameraPosition }

/-- Translation of the close-info click handler: hide the overlay,
clear the focus reference, leave follow mode and reset the camera
view. -/
def closeInfoClick (s : SysState) : SysState :=
  resetCameraView
    { s with infoActive := false, currentFocusedPlanet := none, cameraFollowMode := false }

/-- Translation of the reset-button click handler: reset the camera
view, hide the overlay and clear the focus state. -/
def resetBtnClick (s : SysState) : SysState :=
  let s1 := resetCameraView s
  { s1 with infoActive := false, currentFocusedPlanet := none, cameraFollowMode := false }

/-- Translation of the pause-button click handler: toggle isPaused. -/
def pauseBtnClick (s : SysState) : SysState :=
  { s with isPaused := !s.isPaused }

/-- Replacement of the element at one index of a list, leaving every
other element in place (used for the slider wiring, which closes over
one planet object). -/
def updateAtIdx {α : Type} : ℕ → (α → α) → List α → List α
  | _, _, [] => []
  | 0, f, a :: as => f a :: as
  | n + 1, f, a :: as => a :: updateAtIdx n f as

/-- Effect of one slider input on its planet, from the input listener
of setupSpeedControls: the planet speed becomes
baseSpeed * multiplier. -/
def sliderEffect (multiplier : ℝ) (p : Planet) : Planet :=
  { p with speed := p.baseSpeed * multiplier }

/-- Translation of the per-planet slider input handler of
setupSpeedControls.  The slider for index i exists only for planets in
the registry, so an out-of-range index leaves the registry
unchanged. -/
def sliderInput (i : ℕ) (multiplier : ℝ) (s : SysState) : SysState :=
  { s with planets := updateAtIdx i (sliderEffect multiplier) s.planets }

/-- Modelled from the spec: the name-keyed speed-control entry point
setSpeedMultiplier(name, value) of section 4.1 and 6.  The source has
no name-keyed function; its sliders are wired per existing planet
index in setupSpeedControls, and each handler performs
planet.speed = planet.baseSpeed * multiplier.  This definition applies
that same effect to the body whose name matches and leaves every other
body, and the whole registry when no name matches, unchanged. -/
def setSpeedMultiplier (name : String) (value : ℝ) (ps : List Planet) : List Planet :=
  ps.map (fun p => if p.name = name then sliderEffect value p else p)

/-- Input events of the modelled core.  Selection events stand for a
successful ray intersection inside checkPlanetClick (the intersection
primitive itself is an external collaborator); a miss dispatches no
event. -/
inductive Ev where
  | tick (elapsedTime : ℝ)
  | mouseDown (x y : ℝ)
  | mouseMove (x y : ℝ)
  | mouseUp
  | wheel (deltaY : ℝ)
  | selectSun
  | selectPlanet (i : ℕ)
  | closeInfo
  | resetBtn
  | pauseBtn
  | slider (i : ℕ) (multiplier : ℝ)

/-- Dispatch of one event to its handler. -/
def step : Ev → SysState → SysState
  | Ev.tick e => animateTick e
  | Ev.mouseDown x y => onMouseDown x y
  | Ev.mouseMove x y => onMouseMove x y
  | Ev.mouseUp => onMouseUp
  | Ev.wheel d => onMouseWheel d
  | Ev.selectSun => focusOnSun
  | Ev.selectPlanet i => focusOnPlanet i
  | Ev.closeInfo => closeInfoClick
  | Ev.resetBtn => resetBtnClick
  | Ev.pauseBtn => pauseBtnClick
  | Ev.slider i m => sliderInput i m

/-- Initial state after the constructor: the registry is built, the
clock-driven fields are zero, playback is running at global multiplier
one, the controls hold the authored spherical pose (50, PI / 3, 0)
with rotation speed 0.005 and distance bounds 10 and 200, the camera
pose comes from updateCameraFromControls, no body is focused and the
overlay is hidden. -/
def init : SysState :=
  updateCameraFromControls
    { planets := planets0
      sun := { rotY := 0, shaderTime := 0 }
      starsRotY := 0
      isPaused := false
      globalSpeedMultiplier := 1
      controls :=
        { isMouseDown := false
          mouseX := 0
          mouseY := 0
          rotationSpeed := 0.005
          minDistance := 10
          maxDistance := 200
          spherical := { radius := 50, phi := Real.pi / 3, theta := 0 }
          target := ⟨0, 0, 0⟩ }
      camera := { position := defaultCameraPosition, lookTarget := ⟨0, 0, 0⟩ }
      currentFocusedPlanet := none
      cameraFollowMode := false
      infoActive := false
      tweenTarget := none }

/-- State reached by processing a list of events from the initial
state. -/
def run (evs : List Ev) : SysState :=
  evs.foldl (fun s e => step e s) init

/-- Circular-orbit body invariant: the mesh sits on the orbital plane,
its squared planar distance from the origin is the squared orbit
radius, and the orbit radius is nonnegative. -/
def onCircle (p : Planet) : Prop :=
  p.posX ^ 2 + p.posZ ^ 2 = p.orbitRadius ^ 2 ∧ p.posY = 0 ∧ 0 ≤ p.orbitRadius

/-- Registry-wide circular-orbit invariant. -/
def allOnCircle (ps : List Planet) : Prop :=
  ∀ p ∈ ps, onCircle p

/-- Position-formula property of one body: the mesh position is
(cos angle * orbitRadius, 0, sin angle * orbitRadius). -/
def posFromAngle (p : Planet) : Prop :=
  p.posX = Real.cos p.angle * p.orbitRadius ∧ p.posY = 0 ∧
    p.posZ = Real.sin p.angle * p.orbitRadius

/-- Registry-wide position-formula property. -/
def allPosFromAngle (ps : List Planet) : Prop :=
  ∀ p ∈ ps, posFromAngle p

/-- Registry-wide exact planar-distance property: every mesh is at
planar distance orbitRadius from the origin. -/
def allPlanarDistEq (ps : List Planet) : Prop :=
  ∀ p ∈ ps, Real.sqrt (p.posX ^ 2 + p.posZ ^ 2) = p.orbitRadius

/-- Focus-overlay coupling: a present planet-focus reference forces a
visible overlay. -/
def focusImpliesOverlay (s : SysState) : Prop :=
  s.currentFocusedPlanet.isSome = true → s.infoActive = true

/-- The planet record at index 0 of the registry (Mercury) immediately
after creation. -/
def mercuryPlanet : Planet :=
  createPlanet mercuryData 0

/-- Reachable state exercising the drag handler while a planet focus
is active: planet index 2 is selected, then the button is pressed at
screen coordinates (0, 0). -/
def dragFocusState : SysState :=
  run [Ev.selectPlanet 2, Ev.mouseDown 0 0]

/-- Follow-mode state with planet 0 focused, used to exercise the
per-tick camera smoothing. -/
def followWitState : SysState :=
  { init with cameraFollowMode := true, currentFocusedPlanet := some 0 }

/-- Follow-mode state with the simulation paused (so the focused body
is frozen) and the camera placed so that its distance to the focused
body equals the follow-offset magnitude exactly. -/
def followCexState : SysState :=
  { init with
    isPaused := true
    cameraFollowMode := true
    currentFocusedPlanet := some 0
    camera := { position := ⟨3.2, -3, -6⟩, lookTarget := ⟨0, 0, 0⟩ } }

/-- State s with the simulation paused and planet i focused in follow
mode (the configuration reached by focusing a planet and pressing
pause). -/
def pausedFollow (i : ℕ) (s : SysState) : SysState :=
  { s with isPaused := true, cameraFollowMode := true, currentFocusedPlanet := some i }

section HelperLemmas

lemma followCamera_planets (s : SysState) : (followCamera s).planets = s.planets := by
  unfold followCamera
  repeat' split
  all_goals rfl

lemma followCamera_sun (s : SysState) : (followCamera s).sun = s.sun := by
  unfold followCamera
  repeat' split
  all_goals rfl

lemma followCamera_starsRotY (s : SysState) : (followCamera s).starsRotY = s.starsRotY := by
  unfold followCamera
  repeat' split
  all_goals rfl

lemma followCamera_isPaused (s : SysState) : (followCamera s).isPaused = s.isPaused := by
  unfold followCamera
  repeat' split
  all_goals rfl

lemma followCamera_focus (s : SysState) :
    (followCamera s).currentFocusedPlanet = s.currentFocusedPlanet := by
  unfold followCamera
  repeat' split
  all_goals rfl

lemma followCamera_infoActive (s : SysState) : (followCamera s).infoActive = s.infoActive := by
  unfold followCamera
  repeat' split
  all_goals rfl

lemma followCamera_controls (s : SysState) : (followCamera s).controls = s.controls := by
  unfold followCamera
  repeat' split
  all_goals rfl

lemma animateTick_planets (e : ℝ) (s : SysState) :
    (animateTick e s).planets =
      if s.isPaused then s.planets
      else tickPlanets s.globalSpeedMultiplier e s.planets := by
  unfold animateTick
  split
  · rw [followCamera_planets]
  · rw [followCamera_planets]

lemma animateTick_sun (e : ℝ) (s : SysState) :
    (animateTick e s).sun =
      if s.isPaused then s.sun
      else { rotY := s.sun.rotY + 0.005, shaderTime := e } := by
  unfold animateTick
  split
  · rw [followCamera_sun]
  · rw [followCamera_sun]

lemma animateTick_starsRotY (e : ℝ) (s : SysState) :
    (animateTick e s).starsRotY =
      if s.isPaused then s.starsRotY else s.starsRotY + 0.0002 := by
  unfold animateTick
  split
  · rw [followCamera_starsRotY]
  · rw [followCamera_starsRotY]

lemma animateTick_focus (e : ℝ) (s : SysState) :
    (animateTick e s).currentFocusedPlanet = s.currentFocusedPlanet := by
  unfold animateTick
  split
  · rw [followCamera_focus]
  · rw [followCamera_focus]

lemma animateTick_infoActive (e : ℝ) (s : SysState) :
    (animateTick e s).infoActive = s.infoActive := by
  unfold animateTick
  split
  · rw [followCamera_infoActive]
  · rw [followCamera_infoActive]

lemma focusOnPlanet_planets (i : ℕ) (s : SysState) :
    (focusOnPlanet i s).planets = s.planets := by
  unfold focusOnPlanet
  split
  · rfl
  · rfl

lemma onMouseMove_planets (x y : ℝ) (s : SysState) :
    (onMouseMove x y s).planets = s.planets := by
  unfold onMouseMove updateCameraFromControls
  dsimp only
  repeat' split
  all_goals rfl

lemma onMouseMove_focusFields (x y : ℝ) (s : SysState) :
    (onMouseMove x y s).currentFocusedPlanet = s.currentFocusedPlanet ∧
      (onMouseMove x y s).infoActive = s.infoActive := by
  unfold onMouseMove updateCameraFromControls
  dsimp only
  repeat' split
  all_goals exact ⟨rfl, rfl⟩

lemma onMouseWheel_planets (d : ℝ) (s : SysState) :
    (onMouseWheel d s).planets = s.planets := by
  unfold onMouseWheel updateCameraFromControls
  dsimp only
  repeat' split
  all_goals rfl

lemma onMouseWheel_focusFields (d : ℝ) (s : SysState) :
    (onMouseWheel d s).currentFocusedPlanet = s.currentFocusedPlanet ∧
      (onMouseWheel d s).infoActive = s.infoActive := by
  unfold onMouseWheel updateCameraFromControls
  dsimp only
  repeat' split
  all_goals exact ⟨rfl, rfl⟩

lemma run_append (evs : List Ev) (e : Ev) :
    run (evs ++ [e]) = step e (run evs) := by
  unfold run
  rw [List.foldl_append]
  rfl

lemma mem_updateAtIdx {α : Type} (f : α → α) :
    ∀ (i : ℕ) (l : List α), ∀ p ∈ updateAtIdx i f l, ∃ q ∈ l, p = q ∨ p = f q := by
  intro i l
  induction l generalizing i with
  | nil => intro p hp; simp [updateAtIdx] at hp
  | cons a as ih =>
    intro p hp
    cases i with
    | zero =>
      simp only [updateAtIdx, List.mem_cons] at hp
      rcases hp with h | h
      · exact ⟨a, List.mem_cons_self a as, Or.inr h⟩
      · exact ⟨p, List.mem_cons_of_mem _ h, Or.inl rfl⟩
    | succ n =>
      simp only [updateAtIdx, List.mem_cons] at hp
      rcases hp with h | h
      · exact ⟨a, List.mem_cons_self a as, Or.inl h⟩
      · rcases ih n p h with ⟨q, hq, hor⟩
        exact ⟨q, List.mem_cons_of_mem _ hq, hor⟩

lemma allOnCircle_planets0 : allOnCircle planets0 := by
  intro p hp
  have hcases : p = createPlanet mercuryData 0 ∨ p = createPlanet venusData 1 ∨
      p = createPlanet earthData 2 ∨ p = createPlanet marsData 3 ∨
      p = createPlanet jupiterData 4 ∨ p = createPlanet saturnData 5 ∨
      p = createPlanet uranusData 6 ∨ p = createPlanet neptuneData 7 := by
    simpa [planets0, buildPlanets, planetData] using hp
  rcases hcases with h | h | h | h | h | h | h | h <;> subst h <;>
    norm_num [onCircle, createPlanet, mercuryData, venusData, earthData, marsData,
      jupiterData, saturnData, uranusData, neptuneData]

lemma onCircle_tickPlanet (g e : ℝ) (p : Planet) (h : onCircle p) :
    onCircle (tickPlanet g e p) ∧ posFromAngle (tickPlanet g e p) := by
  obtain ⟨hc, hy, hr⟩ := h
  constructor
  · refine ⟨?_, hy, hr⟩
    show (Real.cos (p.angle + p.speed * g) * p.orbitRadius) ^ 2 +
        (Real.sin (p.angle + p.speed * g) * p.orbitRadius) ^ 2 = p.orbitRadius ^ 2
    have hs := Real.sin_sq_add_cos_sq (p.angle + p.speed * g)
    linear_combination p.orbitRadius ^ 2 * hs
  · exact ⟨rfl, hy, rfl⟩

lemma onCircle_sliderEffect (m : ℝ) (p : Planet) (h : onCircle p) :
    onCircle (sliderEffect m p) := h

lemma allOnCircle_step (ev : Ev) (s : SysState) (h : allOnCircle s.planets) :
    allOnCircle (step ev s).planets := by
  cases ev with
  | tick e =>
    show allOnCircle (animateTick e s).planets
    rw [animateTick_planets]
    split
    · exact h
    · intro p hp
      rcases List.mem_map.mp hp with ⟨q, hq, rfl⟩
      exact (onCircle_tickPlanet _ _ q (h q hq)).1
  | mouseDown x y => exact h
  | mouseMove x y =>
    show allOnCircle (onMouseMove x y s).planets
    rw [onMouseMove_planets]
    exact h
  | mouseUp => exact h
  | wheel d =>
    show allOnCircle (onMouseWheel d s).planets
    rw [onMouseWheel_planets]
    exact h
  | selectSun => exact h
  | selectPlanet i =>
    show allOnCircle (focusOnPlanet i s).planets
    rw [focusOnPlanet_planets]
    exact h
  | closeInfo => exact h
  | resetBtn => exact h
  | pauseBtn => exact h
  | slider i m =>
    intro p hp
    rcases mem_updateAtIdx (sliderEffect m) i s.planets p hp with ⟨q, hq, hor⟩
    rcases hor with rfl | rfl
    · exact h _ hq
    · exact onCircle_sliderEffect m q (h q hq)

lemma allOnCircle_run (evs : List Ev) : allOnCircle (run evs).planets := by
  suffices hgen : ∀ s, allOnCircle s.planets →
      allOnCircle (evs.foldl (fun s e => step e s) s).planets by
    exact hgen init allOnCircle_planets0
  induction evs with
  | nil => intro s h; exact h
  | cons e es ih => intro s h; exact ih _ (allOnCircle_step e s h)

/-- C2 amended.  In every reachable state, every planet mesh lies on
the orbital plane (y = 0) and at planar distance exactly orbitRadius
from the origin; and every pass of the unpaused orbit updater leaves
every planet at position
(cos(orbitalAngle) * orbitRadius, 0, sin(orbitalAngle) * orbitRadius).
The position formula itself does not hold immediately after registry
creation (see the counterexample), only after the updater has run. -/
theorem circular_orbit_invariant (evs : List Ev) :
    allOnCircle (run evs).planets ∧
    allPlanarDistEq (run evs).planets ∧
    ∀ g e, allPosFromAngle (tickPlanets g e (run evs).planets) := by
  have h := allOnCircle_run evs
  refine ⟨h, ?_, ?_⟩
  · intro p hp
    obtain ⟨hc, hy, hr⟩ := h p hp
    rw [hc]
    exact Real.sqrt_sq hr
  · intro g e p hp
    rcases List.mem_map.mp hp with ⟨q, hq, rfl⟩
    exact (onCircle_tickPlanet g e q (h q hq)).2

/-- C2 counterexample.  Immediately after registry creation the body
at index 1 (Venus) sits at position (orbitRadius, 0, 0) while its
orbital angle is pi / 4, so its position does not satisfy the formula
(cos(orbitalAngle) * orbitRadius, 0, sin(orbitalAngle) * orbitRadius). -/
theorem position_formula_fails_at_creation :
    init.planets[1]? = some (createPlanet venusData 1) ∧
    ¬ posFromAngle (createPlanet venusData 1) := by
  refine ⟨rfl, ?_⟩
  intro hpf
  have hx := hpf.1
  have hang : (createPlanet venusData 1).angle = Real.pi / 4 := by
    show ((1 : ℕ) : ℝ) * Real.pi * 2 / 8 = Real.pi / 4
    push_cast
    ring
  have hpos : (createPlanet venusData 1).posX = (12 : ℝ) := by
    show ((12 : ℚ) : ℝ) = 12
    norm_num
  have hor : (createPlanet venusData 1).orbitRadius = (12 : ℝ) := by
    show ((12 : ℚ) : ℝ) = 12
    norm_num
  rw [hpos, hang, hor, Real.cos_pi_div_four] at hx
  have h2 : Real.sqrt 2 = 2 := by linarith
  have h4 := Real.sq_sqrt (show (0 : ℝ) ≤ 2 by norm_num)
  rw [h2] at h4
  norm_num at h4

/-- C1.  For every body, after setting the per-body slider multiplier
to m and running n unpaused updater ticks at constant global
multiplier g, the orbital angle is exactly
initialAngle + n * baseAngularSpeed * m * g (exact equality, hence
also equality mod two pi).  The slider acts by replacing speed with
baseSpeed * m, as in the source handler. -/
theorem orbit_angle_linear_in_ticks (p : Planet) (m g e : ℝ) (n : ℕ) :
    ((tickPlanet g e)^[n] (sliderEffect m p)).angle
      = p.angle + n * (p.baseSpeed * m * g) := by
  have hspeed : ∀ k, ((tickPlanet g e)^[k] (sliderEffect m p)).speed = p.baseSpeed * m := by
    intro k
    induction k with
    | zero => rfl
    | succ k ih =>
      rw [Function.iterate_succ_apply']
      exact ih
  induction n with
  | zero => simp [sliderEffect]
  | succ n ih =>
    rw [Function.iterate_succ_apply']
    have hstep : (tickPlanet g e ((tickPlanet g e)^[n] (sliderEffect m p))).angle
        = ((tickPlanet g e)^[n] (sliderEffect m p)).angle
          + ((tickPlanet g e)^[n] (sliderEffect m p)).speed * g := rfl
    rw [hstep, ih, hspeed n]
    push_cast
    ring

lemma buildPlanets_angle :
    ∀ (ds : List PlanetData) (j i : ℕ) (p : Planet),
      (buildPlanets j ds)[i]? = some p →
      p.angle = (((j + i : ℕ) : ℝ) * Real.pi * 2) / 8 := by
  intro ds
  induction ds with
  | nil => intro j i p h; simp [buildPlanets] at h
  | cons d ds ih =>
    intro j i p h
    cases i with
    | zero =>
      have hp : p = createPlanet d j := by
        have := h
        simp only [buildPlanets, List.getElem?_cons_zero, Option.some.injEq] at this
        exact this.symm
      subst hp
      show ((j : ℝ) * Real.pi * 2) / 8 = (((j + 0 : ℕ) : ℝ) * Real.pi * 2) / 8
      norm_num
    | succ n =>
      have h' : (buildPlanets (j + 1) ds)[n]? = some p := by
        simpa only [buildPlanets, List.getElem?_cons_succ] using h
      have hres := ih (j + 1) n p h'
      rw [hres]
      have : j + 1 + n = j + (n + 1) := by omega
      rw [this]

/-- C5.  The body created at index i of the registry is initialised
with orbital angle (i * 2 * pi) / 8, the divisor being the literal 8
of createPlanet regardless of how many descriptors the registry is
built from. -/
theorem initial_angle_fixed_divisor (ds : List PlanetData) (i : ℕ) (p : Planet)
    (h : (buildPlanets 0 ds)[i]? = some p) :
    p.angle = ((i : ℝ) * (2 * Real.pi)) / 8 := by
  have := buildPlanets_angle ds 0 i p h
  rw [this]
  push_cast
  ring

/-- C5 witness at index 0 of the actual registry. -/
theorem initial_angle_fixed_divisor_witness :
    (buildPlanets 0 planetData)[0]? = some (createPlanet mercuryData 0) ∧
    (createPlanet mercuryData 0).angle = (((0 : ℕ) : ℝ) * (2 * Real.pi)) / 8 :=
  ⟨rfl, initial_angle_fixed_divisor planetData 0 (createPlanet mercuryData 0) rfl⟩

lemma followCamera_global (s : SysState) :
    (followCamera s).globalSpeedMultiplier = s.globalSpeedMultiplier := by
  unfold followCamera
  repeat' split
  all_goals rfl

lemma animateTick_isPaused (e : ℝ) (s : SysState) :
    (animateTick e s).isPaused = s.isPaused := by
  unfold animateTick
  split
  · rw [followCamera_isPaused]
  · rw [followCamera_isPaused]

lemma animateTick_global (e : ℝ) (s : SysState) :
    (animateTick e s).globalSpeedMultiplier = s.globalSpeedMultiplier := by
  unfold animateTick
  split
  · rw [followCamera_global]
  · rw [followCamera_global]

lemma animateTick_paused_frozen (e : ℝ) (s : SysState) (h : s.isPaused = true) :
    (animateTick e s).planets = s.planets ∧ (animateTick e s).sun = s.sun ∧
      (animateTick e s).starsRotY = s.starsRotY := by
  refine ⟨?_, ?_, ?_⟩
  · rw [animateTick_planets, if_pos h]
  · rw [animateTick_sun, if_pos h]
  · rw [animateTick_starsRotY, if_pos h]

lemma animateTick_unpaused (e : ℝ) (s : SysState) (h : s.isPaused = false) :
    (animateTick e s).planets = tickPlanets s.globalSpeedMultiplier e s.planets ∧
      (animateTick e s).sun = { rotY := s.sun.rotY + 0.005, shaderTime := e } ∧
      (animateTick e s).starsRotY = s.starsRotY + 0.0002 := by
  have h' : ¬ s.isPaused = true := by simp [h]
  refine ⟨?_, ?_, ?_⟩
  · rw [animateTick_planets, if_neg h']
  · rw [animateTick_sun, if_neg h']
  · rw [animateTick_starsRotY, if_neg h']

/-- C3.  While isPaused is set, a tick mutates no body state: every
planet (orbital angle, spin, position, shader time uniform), the sun
and the star field are untouched.  After unpausing, the next tick
advances from exactly the frozen values: running a paused tick and
then the pause toggle before an unpaused tick yields the same bodies,
sun and star field as running that unpaused tick directly. -/
theorem paused_tick_freezes_bodies (s : SysState) (e1 e2 : ℝ) :
    ((step (Ev.tick e1) { s with isPaused := true }).planets = s.planets ∧
      (step (Ev.tick e1) { s with isPaused := true }).sun = s.sun ∧
      (step (Ev.tick e1) { s with isPaused := true }).starsRotY = s.starsRotY) ∧
    ((step (Ev.tick e2) (step Ev.pauseBtn
          (step (Ev.tick e1) { s with isPaused := true }))).planets
        = (step (Ev.tick e2) { s with isPaused := false }).planets ∧
      (step (Ev.tick e2) (step Ev.pauseBtn
          (step (Ev.tick e1) { s with isPaused := true }))).sun
        = (step (Ev.tick e2) { s with isPaused := false }).sun ∧
      (step (Ev.tick e2) (step Ev.pauseBtn
          (step (Ev.tick e1) { s with isPaused := true }))).starsRotY
        = (step (Ev.tick e2) { s with isPaused := false }).starsRotY) := by
  have hsp : ({ s with isPaused := true } : SysState).isPaused = true := rfl
  have hA := animateTick_paused_frozen e1 { s with isPaused := true } hsp
  obtain ⟨hA1, hA2, hA3⟩ := hA
  refine ⟨⟨hA1, hA2, hA3⟩, ?_⟩
  have hApause : (animateTick e1 { s with isPaused := true }).isPaused = true := by
    rw [animateTick_isPaused]
  have hAglobal : (animateTick e1 { s with isPaused := true }).globalSpeedMultiplier
      = s.globalSpeedMultiplier := by
    rw [animateTick_global]
  set sA := animateTick e1 { s with isPaused := true } with hsA
  have hB1 : (pauseBtnClick sA).planets = s.planets := hA1
  have hB2 : (pauseBtnClick sA).sun = s.sun := hA2
  have hB3 : (pauseBtnClick sA).starsRotY = s.starsRotY := hA3
  have hBpause : (pauseBtnClick sA).isPaused = false := by
    show (!sA.isPaused) = false
    rw [hApause]
    rfl
  have hBglobal : (pauseBtnClick sA).globalSpeedMultiplier = s.globalSpeedMultiplier :=
    hAglobal
  have hC := animateTick_unpaused e2 (pauseBtnClick sA) hBpause
  have hD := animateTick_unpaused e2 { s with isPaused := false } rfl
  refine ⟨?_, ?_, ?_⟩
  · show (animateTick e2 (pauseBtnClick sA)).planets
        = (animateTick e2 { s with isPaused := false }).planets
    rw [hC.1, hD.1, hB1, hBglobal]
  · show (animateTick e2 (pauseBtnClick sA)).sun
        = (animateTick e2 { s with isPaused := false }).sun
    rw [hC.2.1, hD.2.1, hB2]
  · show (animateTick e2 (pauseBtnClick sA)).starsRotY
        = (animateTick e2 { s with isPaused := false }).starsRotY
    rw [hC.2.2, hD.2.2, hB3]

lemma focusImpliesOverlay_step (ev : Ev) (s : SysState) (h : focusImpliesOverlay s) :
    focusImpliesOverlay (step ev s) := by
  cases ev with
  | tick e =>
    show focusImpliesOverlay (animateTick e s)
    intro hf
    rw [animateTick_infoActive]
    rw [animateTick_focus] at hf
    exact h hf
  | mouseDown x y => exact h
  | mouseMove x y =>
    show focusImpliesOverlay (onMouseMove x y s)
    intro hf
    obtain ⟨hfo, hio⟩ := onMouseMove_focusFields x y s
    rw [hio]
    rw [hfo] at hf
    exact h hf
  | mouseUp => exact h
  | wheel d =>
    show focusImpliesOverlay (onMouseWheel d s)
    intro hf
    obtain ⟨hfo, hio⟩ := onMouseWheel_focusFields d s
    rw [hio]
    rw [hfo] at hf
    exact h hf
  | selectSun => intro _; rfl
  | selectPlanet i =>
    show focusImpliesOverlay (focusOnPlanet i s)
    unfold focusOnPlanet
    split
    · intro _; rfl
    · exact h
  | closeInfo =>
    intro hf
    exact absurd hf (by simp [step, closeInfoClick, resetCameraView])
  | resetBtn =>
    intro hf
    exact absurd hf (by simp [step, resetBtnClick, resetCameraView])
  | pauseBtn => exact h
  | slider i m => exact h

/-- C7 amended.  In every reachable state a present planet-focus
reference implies a visible overlay (the two are set together by
focusOnPlanet and cleared together by the close and reset handlers).
The converse direction of the original claim fails: selecting the Sun
shows the overlay while keeping the focus reference empty, because the
code stores no Sun marker (see the counterexample). -/
theorem focus_implies_overlay_invariant (evs : List Ev) :
    focusImpliesOverlay (run evs) := by
  suffices hgen : ∀ s, focusImpliesOverlay s →
      focusImpliesOverlay (evs.foldl (fun s e => step e s) s) by
    refine hgen init ?_
    intro hf
    have hnone : init.currentFocusedPlanet = none := rfl
    rw [hnone] at hf
    simp at hf
  induction evs with
  | nil => intro s h; exact h
  | cons e es ih => intro s h; exact ih _ (focusImpliesOverlay_step e s h)

/-- C7 counterexample.  Selecting the Sun from the initial state
reaches a state whose overlay is visible while the focus reference is
empty, refuting the claimed equivalence between focus-reference
presence and overlay visibility. -/
theorem sun_focus_overlay_without_reference :
    (run [Ev.selectSun]).infoActive = true ∧
    (run [Ev.selectSun]).currentFocusedPlanet = none :=
  ⟨rfl, rfl⟩

/-- C9.  The name-keyed speed-control request is a silent no-op on an
unknown name: when no body in the registry carries the name, the
registry is returned unchanged.  For a known name the value is applied
as baseSpeed * value with no range clamping (the value is arbitrary),
and bodies with other names are untouched. -/
theorem speed_control_dispatch (name : String) (v : ℝ) (ps : List Planet) :
    (name ∉ ps.map Planet.name → setSpeedMultiplier name v ps = ps) ∧
    (∀ (i : ℕ) (p : Planet), ps[i]? = some p → p.name = name →
      ((setSpeedMultiplier name v ps)[i]?).map Planet.speed = some (p.baseSpeed * v)) ∧
    (∀ (i : ℕ) (p : Planet), ps[i]? = some p → p.name ≠ name →
      (setSpeedMultiplier name v ps)[i]? = some p) := by
  refine ⟨?_, ?_, ?_⟩
  · intro hnot
    unfold setSpeedMultiplier
    conv_rhs => rw [← List.map_id ps]
    apply List.map_congr_left
    intro p hp
    have hne : ¬ p.name = name := fun hn => hnot (hn ▸ List.mem_map_of_mem Planet.name hp)
    simp [hne]
  · intro i p hp hname
    unfold setSpeedMultiplier
    rw [List.getElem?_map, hp]
    simp [hname, sliderEffect]
  · intro i p hp hname
    unfold setSpeedMultiplier
    rw [List.getElem?_map, hp]
    simp [hname]

/-- C9 witness: the unknown name Pluto leaves the registry unchanged,
and the known name Earth receives speed baseSpeed * 5 (a value outside
the slider range, showing the absence of clamping). -/
theorem speed_control_dispatch_witness :
    ("Pluto" ∉ planets0.map Planet.name ∧
      setSpeedMultiplier "Pluto" 5 planets0 = planets0) ∧
    (planets0[2]? = some (createPlanet earthData 2) ∧
      (createPlanet earthData 2).name = "Earth" ∧
      ((setSpeedMultiplier "Earth" 5 planets0)[2]?).map Planet.speed
        = some ((createPlanet earthData 2).baseSpeed * 5)) :=
  ⟨⟨by decide, (speed_control_dispatch "Pluto" 5 planets0).1 (by decide)⟩,
   ⟨rfl, rfl, (speed_control_dispatch "Earth" 5 planets0).2.1 2
      (createPlanet earthData 2) rfl rfl⟩⟩

lemma followCamera_camera_eq (s : SysState) (i : ℕ) (p : Planet)
    (hm : s.cameraFollowMode = true) (hf : s.currentFocusedPlanet = some i)
    (hp : s.planets[i]? = some p) :
    (followCamera s).camera =
      { position := lerp3 s.camera.position (followTargetPos p) 0.05
        lookTarget := planetPos p } := by
  unfold followCamera
  rw [if_pos hm, hf]
  dsimp only
  rw [hp]
  rfl

lemma onMouseMove_following (s : SysState) (x y : ℝ)
    (hf : s.cameraFollowMode = true) (hd : s.controls.isMouseDown = true) :
    (onMouseMove x y s).camera = s.camera ∧
    (onMouseMove x y s).controls.spherical.radius = s.controls.spherical.radius ∧
    (onMouseMove x y s).controls.spherical.theta
      = s.controls.spherical.theta - (x - s.controls.mouseX) * s.controls.rotationSpeed ∧
    (onMouseMove x y s).controls.spherical.phi
      = max 0.1 (min (Real.pi - 0.1)
          (s.controls.spherical.phi + (y - s.controls.mouseY) * s.controls.rotationSpeed)) := by
  unfold onMouseMove
  rw [if_pos hd]
  dsimp only
  rw [if_pos hf]
  exact ⟨rfl, rfl, rfl, rfl⟩

/-- C4 amended.  A drag event processed while follow mode is active
leaves the camera pose untouched (the write from the controls to the
camera is skipped) and leaves the spherical radius unchanged, but it
does mutate the free-orbit spherical parameters: the azimuth decreases
by deltaX * rotationSpeed and the clamped polar angle absorbs
deltaY * rotationSpeed.  The original claim that the spherical
parameters are unchanged while a focus is active fails (see the
counterexample); moreover a Sun focus leaves follow mode off, so drags
during Sun focus move the camera exactly as when idle. -/
theorem drag_captured_while_following (s : SysState) (x y : ℝ)
    (hf : s.cameraFollowMode = true) (hd : s.controls.isMouseDown = true) :
    (onMouseMove x y s).camera = s.camera ∧
    (onMouseMove x y s).controls.spherical.radius = s.controls.spherical.radius ∧
    (onMouseMove x y s).controls.spherical.theta
      = s.controls.spherical.theta - (x - s.controls.mouseX) * s.controls.rotationSpeed ∧
    (onMouseMove x y s).controls.spherical.phi
      = max 0.1 (min (Real.pi - 0.1)
          (s.controls.spherical.phi + (y - s.controls.mouseY) * s.controls.rotationSpeed)) :=
  onMouseMove_following s x y hf hd

/-- C4 witness at a reachable focused state and the drag from (0, 0)
to (1, 0). -/
theorem drag_captured_while_following_witness :
    dragFocusState.cameraFollowMode = true ∧
    dragFocusState.controls.isMouseDown = true ∧
    ((onMouseMove 1 0 dragFocusState).camera = dragFocusState.camera ∧
      (onMouseMove 1 0 dragFocusState).controls.spherical.radius
        = dragFocusState.controls.spherical.radius ∧
      (onMouseMove 1 0 dragFocusState).controls.spherical.theta
        = dragFocusState.controls.spherical.theta
          - (1 - dragFocusState.controls.mouseX) * dragFocusState.controls.rotationSpeed ∧
      (onMouseMove 1 0 dragFocusState).controls.spherical.phi
        = max 0.1 (min (Real.pi - 0.1)
            (dragFocusState.controls.spherical.phi
              + (0 - dragFocusState.controls.mouseY) * dragFocusState.controls.rotationSpeed))) :=
  ⟨rfl, rfl, drag_captured_while_following dragFocusState 1 0 rfl rfl⟩

/-- C4 counterexample.  From a reachable state with a planet focused
and the button held, the drag to (1, 0) changes the azimuth (from 0
to -0.005), so drag input while a focus is active does not leave the
free-orbit camera parameters unchanged. -/
theorem drag_mutates_azimuth_while_focused :
    dragFocusState.cameraFollowMode = true ∧
    (step (Ev.mouseMove 1 0) dragFocusState).controls.spherical.theta
      ≠ dragFocusState.controls.spherical.theta := by
  refine ⟨rfl, ?_⟩
  show (onMouseMove 1 0 dragFocusState).controls.spherical.theta
      ≠ dragFocusState.controls.spherical.theta
  rw [(onMouseMove_following dragFocusState 1 0 rfl rfl).2.2.1]
  have h1 : dragFocusState.controls.spherical.theta = 0 := rfl
  have h2 : dragFocusState.controls.mouseX = 0 := rfl
  have h3 : dragFocusState.controls.rotationSpeed = 0.005 := rfl
  rw [h1, h2, h3]
  norm_num

lemma resetBtnClick_post (s : SysState) :
    (resetBtnClick s).currentFocusedPlanet = none ∧
    (resetBtnClick s).cameraFollowMode = false ∧
    (resetBtnClick s).infoActive = false ∧
    (resetBtnClick s).controls.spherical.radius = 50 ∧
    (resetBtnClick s).controls.spherical.phi = Real.pi / 3 ∧
    (resetBtnClick s).controls.spherical.theta = 0 ∧
    (resetBtnClick s).controls.target = ⟨0, 0, 0⟩ :=
  ⟨rfl, rfl, rfl, rfl, rfl, rfl, rfl⟩

lemma resetBtnClick_idem (s : SysState) :
    resetBtnClick (resetBtnClick s) = resetBtnClick s := by
  cases s
  rfl

/-- C6.  After any event sequence followed by a reset request, the
focus state is idle (no focus reference, follow mode off), the overlay
is hidden, and the free-orbit camera parameters hold the authored
defaults: radius 50, polar angle pi / 3, azimuth 0, target the origin.
Applying reset again changes nothing. -/
theorem reset_restores_defaults (evs : List Ev) :
    (run (evs ++ [Ev.resetBtn])).currentFocusedPlanet = none ∧
    (run (evs ++ [Ev.resetBtn])).cameraFollowMode = false ∧
    (run (evs ++ [Ev.resetBtn])).infoActive = false ∧
    (run (evs ++ [Ev.resetBtn])).controls.spherical.radius = 50 ∧
    (run (evs ++ [Ev.resetBtn])).controls.spherical.phi = Real.pi / 3 ∧
    (run (evs ++ [Ev.resetBtn])).controls.spherical.theta = 0 ∧
    (run (evs ++ [Ev.resetBtn])).controls.target = ⟨0, 0, 0⟩ ∧
    step Ev.resetBtn (run (evs ++ [Ev.resetBtn])) = run (evs ++ [Ev.resetBtn]) := by
  rw [run_append]
  obtain ⟨h1, h2, h3, h4, h5, h6, h7⟩ := resetBtnClick_post (run evs)
  exact ⟨h1, h2, h3, h4, h5, h6, h7, resetBtnClick_idem (run evs)⟩

/-- C8 amended.  While follow mode is active with a focused planet,
each pass of the follow block sets the camera position to the lerp of
the current position toward the recomputed target (planet position
plus rotated offset) with factor 0.05, and points the camera at the
planet position; consequently the camera-to-target displacement
contracts by the exact factor 0.95 each pass.  The original claim that
the camera-to-body distance converges monotonically toward the offset
magnitude fails (see the counterexample). -/
theorem follow_mode_lerp_contraction (s : SysState) (i : ℕ) (p : Planet)
    (hm : s.cameraFollowMode = true) (hf : s.currentFocusedPlanet = some i)
    (hp : s.planets[i]? = some p) :
    (followCamera s).camera.position = lerp3 s.camera.position (followTargetPos p) 0.05 ∧
    (followCamera s).camera.lookTarget = planetPos p ∧
    Vec3.sub (followCamera s).camera.position (followTargetPos p)
      = Vec3.smul 0.95 (Vec3.sub s.camera.position (followTargetPos p)) := by
  have hcam := followCamera_camera_eq s i p hm hf hp
  refine ⟨by rw [hcam], by rw [hcam], ?_⟩
  rw [hcam]
  show Vec3.sub (lerp3 s.camera.position (followTargetPos p) 0.05) (followTargetPos p)
      = Vec3.smul 0.95 (Vec3.sub s.camera.position (followTargetPos p))
  unfold Vec3.sub Vec3.smul lerp3
  simp only [Vec3.mk.injEq]
  refine ⟨by ring, by ring, by ring⟩

/-- C8 witness at the registry state with planet 0 focused. -/
theorem follow_mode_lerp_contraction_witness :
    followWitState.cameraFollowMode = true ∧
    followWitState.currentFocusedPlanet = some 0 ∧
    followWitState.planets[0]? = some mercuryPlanet ∧
    ((followCamera followWitState).camera.position
        = lerp3 followWitState.camera.position (followTargetPos mercuryPlanet) 0.05 ∧
      (followCamera followWitState).camera.lookTarget = planetPos mercuryPlanet ∧
      Vec3.sub (followCamera followWitState).camera.position (followTargetPos mercuryPlanet)
        = Vec3.smul 0.95
            (Vec3.sub followWitState.camera.position (followTargetPos mercuryPlanet))) :=
  ⟨rfl, rfl, rfl, follow_mode_lerp_contraction followWitState 0 mercuryPlanet rfl rfl rfl⟩

lemma mercuryPlanet_angle : mercuryPlanet.angle = 0 := by
  show ((0 : ℕ) : ℝ) * Real.pi * 2 / 8 = 0
  norm_num

lemma mercuryPlanet_posX : mercuryPlanet.posX = 8 := by
  show ((8 : ℚ) : ℝ) = 8
  norm_num

lemma mercuryPlanet_posY : mercuryPlanet.posY = 0 := rfl

lemma mercuryPlanet_posZ : mercuryPlanet.posZ = 0 := rfl

lemma mercuryPlanet_meshRadius : mercuryPlanet.meshRadius = 1.2 := by
  show ((1.2 : ℚ) : ℝ) = 1.2
  norm_num

/-- C8 counterexample.  In a follow-mode state whose camera-to-body
distance equals the offset magnitude exactly (both squared distances
are 68.04) and whose body is frozen by pause, one tick moves the
camera so that the squared camera-to-body distance becomes 55.1124:
the distance leaves the offset magnitude instead of converging
monotonically toward it. -/
theorem follow_distance_not_monotone :
    followCexState.planets[0]? = some mercuryPlanet ∧
    (step (Ev.tick 0) followCexState).planets[0]? = some mercuryPlanet ∧
    distSq followCexState.camera.position (planetPos mercuryPlanet)
      = distSq (followTargetPos mercuryPlanet) (planetPos mercuryPlanet) ∧
    distSq ((step (Ev.tick 0) followCexState).camera.position) (planetPos mercuryPlanet)
      ≠ distSq (followTargetPos mercuryPlanet) (planetPos mercuryPlanet) := by
  have hpos : followCexState.camera.position = ⟨3.2, -3, -6⟩ := rfl
  have htargets : distSq (followTargetPos mercuryPlanet) (planetPos mercuryPlanet)
      = 68.04 := by
    unfold distSq followTargetPos planetPos applyRotY Vec3.add
    rw [mercuryPlanet_angle, Real.cos_zero, Real.sin_zero,
      mercuryPlanet_posX, mercuryPlanet_posY, mercuryPlanet_posZ, mercuryPlanet_meshRadius]
    norm_num
  refine ⟨rfl, rfl, ?_, ?_⟩
  · rw [htargets, hpos]
    unfold distSq planetPos
    rw [mercuryPlanet_posX, mercuryPlanet_posY, mercuryPlanet_posZ]
    norm_num
  · have hstep : (step (Ev.tick 0) followCexState).camera
        = (followCamera followCexState).camera := by
      show (animateTick 0 followCexState).camera = _
      unfold animateTick
      dsimp only
      rw [if_pos (show followCexState.isPaused = true from rfl)]
    have hcam := followCamera_camera_eq followCexState 0 mercuryPlanet rfl rfl rfl
    rw [hstep, hcam, htargets, hpos]
    dsimp only
    unfold distSq lerp3 followTargetPos planetPos applyRotY Vec3.add
    rw [mercuryPlanet_angle, Real.cos_zero, Real.sin_zero,
      mercuryPlanet_posX, mercuryPlanet_posY, mercuryPlanet_posZ, mercuryPlanet_meshRadius]
    norm_num

/-- C10.  While paused with a planet focused in follow mode, a tick
leaves every body and the sun frozen yet still mutates the camera: the
follow block runs outside the pause guard, lerping the camera toward
the offset from the frozen planet position and pointing it at the
planet. -/
theorem paused_tick_still_moves_camera (s : SysState) (e : ℝ) (i : ℕ) (p : Planet)
    (hp : s.planets[i]? = some p) :
    (step (Ev.tick e) (pausedFollow i s)).planets = s.planets ∧
    (step (Ev.tick e) (pausedFollow i s)).sun = s.sun ∧
    (step (Ev.tick e) (pausedFollow i s)).camera.position
      = lerp3 s.camera.position (followTargetPos p) 0.05 ∧
    (step (Ev.tick e) (pausedFollow i s)).camera.lookTarget = planetPos p := by
  set sp := pausedFollow i s with hspdef
  have hstep : step (Ev.tick e) sp = followCamera sp := by
    show animateTick e sp = followCamera sp
    unfold animateTick
    dsimp only
    rw [if_pos (show sp.isPaused = true from rfl)]
  have hcam := followCamera_camera_eq sp i p rfl rfl hp
  refine ⟨?_, ?_, ?_, ?_⟩
  · rw [hstep, followCamera_planets]
    rfl
  · rw [hstep, followCamera_sun]
    rfl
  · rw [hstep, hcam]
    rfl
  · rw [hstep, hcam]

/-- C10 witness at the initial registry with planet 0 focused. -/
theorem paused_tick_still_moves_camera_witness :
    init.planets[0]? = some mercuryPlanet ∧
    ((step (Ev.tick 1) (pausedFollow 0 init)).planets = init.planets ∧
      (step (Ev.tick 1) (pausedFollow 0 init)).sun = init.sun ∧
      (step (Ev.tick 1) (pausedFollow 0 init)).camera.position
        = lerp3 init.camera.position (followTargetPos mercuryPlanet) 0.05 ∧
      (step (Ev.tick 1) (pausedFollow 0 init)).camera.lookTarget = planetPos mercuryPlanet) :=
  ⟨rfl, paused_tick_still_moves_camera init 1 0 mercuryPlanet rfl⟩

end HelperLemmas

end

end NovaSphere
